import Mathlib

/-!
Shallow embedding of the card-vault-be offer/settlement core.

The definitions below are translated from:
  * src/unnamed/part_001  (TradeOffer mongoose model: `tradeOfferSchema`)
  * src/unnamed/part_005  (Listing mongoose model: `listingSchema`)
  * src/models/Transaction.js  (`transactionSchema`)
  * src/unnamed/part_002  (Notification mongoose model)
  * src/controllers/tradeOfferController.js
      (`createOffer`, `acceptOffer`, `declineOffer`, `cancelOffer`)
  * src/controllers/paymentController.js
      (`createCheckoutSession`, `handleWebhook`)

Modelling conventions:
  * ObjectIds are `Nat`; timestamps are `Nat`; JS number prices are `Rat`
    (no floating point is exercised by the modelled control flow).
  * Mongoose statuses are `String`s, exactly the literals in the source;
    schema `enum` lists are `List String`.
  * `Document.save()` runs schema validation (mongoose default
    `validateBeforeSave`); a failed validation raises `ValidationError`,
    which every controller catches.  We model a save as: validate the
    document, and on failure take the controller's catch branch.
  * `findByIdAndUpdate` does not run validators (mongoose default) and is
    a no-op for a missing id.
  * The store is a `DB` value threaded through each handler; a handler
    returns its HTTP status code together with the store afterwards.
  * External calls (Stripe session creation, signature verification) are
    inputs: the Stripe session the gateway returned (or `none` when the
    call threw), and a `sigValid` flag on the webhook event standing for
    `stripe.webhooks.constructEvent` succeeding.
-/

namespace CardVault

/-- A TradeOffer document: the fields of `tradeOfferSchema`
(src/unnamed/part_001, lines 153-231). -/
structure OfferDoc where
  oid : Nat
  listing : Nat
  buyer : Nat
  seller : Nat
  card : Nat
  offeredPrice : Rat
  listingPrice : Rat
  status : String
  initialMessage : String
  responseMessage : String
  resolvedAt : Option Nat
deriving DecidableEq

/-- A Listing document: the core-relevant fields of `listingSchema`
(src/unnamed/part_005, lines 10-85). -/
structure ListingDoc where
  lid : Nat
  seller : Nat
  card : Nat
  price : Rat
  status : String
deriving DecidableEq

/-- A Transaction document: the fields of `transactionSchema`
(src/models/Transaction.js, lines 16-86). -/
structure TxnDoc where
  buyer : Nat
  seller : Nat
  tradeOffer : Nat
  listing : Nat
  card : Nat
  amount : Rat
  stripeSessionId : Option String
  stripePaymentIntentId : Option String
  status : String
  completedAt : Option Nat
deriving DecidableEq

/-- A Notification document (src/unnamed/part_002, lines 142-183). -/
structure NotifDoc where
  user : Nat
  ntype : String
  relatedOffer : Nat
deriving DecidableEq

/-- `tradeOfferSchema.status.enum` (src/unnamed/part_001, lines 201-207).
Note: the list has no `completed` entry. -/
def offerStatusEnum : List String := ["pending", "accepted", "declined", "cancelled"]

/-- `transactionSchema.status.enum` (src/models/Transaction.js, lines 72-76). -/
def txnStatusEnum : List String := ["pending", "completed", "failed"]

/-- `listingSchema.status.enum` (src/unnamed/part_005, lines 48-53). -/
def listingStatusEnum : List String := ["active", "sold", "expired", "cancelled"]

/-- `tradeOfferSchema.offeredPrice.min` = 0.01
(src/unnamed/part_001, line 191). -/
def offerMinPrice : Rat := mkRat 1 100

/-- Index options declared on a schema path. -/
structure FieldIndexOpts where
  unique : Bool
  sparse : Bool
deriving DecidableEq

/-- Index options of `transactionSchema.tradeOffer`
(src/models/Transaction.js, lines 33-37): only `ref` and `required` are
declared there, so no uniqueness and no sparseness. -/
def transactionSchema_tradeOffer : FieldIndexOpts := ⟨false, false⟩

/-- Index options of `transactionSchema.stripeSessionId`
(src/models/Transaction.js, lines 60-64): `unique: true, sparse: true`. -/
def transactionSchema_stripeSessionId : FieldIndexOpts := ⟨true, true⟩

/-- Mongoose validation of a TradeOffer document, as declared in
`tradeOfferSchema`: `offeredPrice` has `min: 0.01`, `status` has the
four-element `enum`, and the two message fields have `maxlength: 500`.
The `required` paths are always present in the typed model. -/
def validOffer (o : OfferDoc) : Bool :=
  decide (offerMinPrice ≤ o.offeredPrice)
    && offerStatusEnum.contains o.status
    && decide (o.initialMessage.length ≤ 500)
    && decide (o.responseMessage.length ≤ 500)

/-- Mongoose validation of a Transaction document: `status` must be in
`transactionSchema.status.enum`; all `required` paths are present in the
typed model. -/
def validTxn (t : TxnDoc) : Bool :=
  txnStatusEnum.contains t.status

/-- The persistent store. -/
structure DB where
  offers : List OfferDoc
  listings : List ListingDoc
  transactions : List TxnDoc
  notifications : List NotifDoc
deriving DecidableEq

/-- `TradeOffer.findById(oid)`. -/
def findOffer (oid : Nat) (db : DB) : Option OfferDoc :=
  db.offers.find? (fun o => o.oid == oid)

/-- `Listing.findById(lid)`. -/
def findListing (lid : Nat) (db : DB) : Option ListingDoc :=
  db.listings.find? (fun l => l.lid == lid)

/-- The write half of `offer.save()`: replace the stored document that has
the saved document's id. -/
def saveOffer (o : OfferDoc) (db : DB) : DB :=
  { db with offers := db.offers.map (fun x => if x.oid == o.oid then o else x) }

/-- `Listing.findByIdAndUpdate(lid, { status: 'sold' })`
(src/controllers/paymentController.js, line 178): no validators run, and a
missing id is a no-op. -/
def setListingSold (lid : Nat) (db : DB) : DB :=
  { db with listings :=
      db.listings.map (fun l => if l.lid == lid then { l with status := "sold" } else l) }

/-- JS truthiness of an optional string argument: `undefined` and the empty
string are falsy (used for `if (responseMessage) ...`). -/
def jsTruthy : Option String → Bool
  | none => false
  | some s => s != ""

/-- `createOffer` (src/controllers/tradeOfferController.js, lines 22-82).
`uid` is `req.user._id`; `newId` is the id the store assigns to the created
document.  `TradeOffer.create` validates the document; a `ValidationError`
is caught by the controller's catch-all, which answers 500. -/
def createOffer (uid listingId : Nat) (offeredPrice : Rat)
    (initialMessage : Option String) (newId : Nat) (db : DB) : Nat × DB :=
  match findListing listingId db with
  | none => (404, db)
  | some listing =>
    if listing.seller == uid then (400, db)
    else if listing.status != "active" then (400, db)
    else
      let doc : OfferDoc :=
        { oid := newId
          listing := listing.lid
          buyer := uid
          seller := listing.seller
          card := listing.card
          offeredPrice := offeredPrice
          listingPrice := listing.price
          status := "pending"
          initialMessage := initialMessage.getD ""
          responseMessage := ""
          resolvedAt := none }
      if validOffer doc then (201, { db with offers := db.offers ++ [doc] })
      else (500, db)

/-- The part of `acceptOffer` after `TradeOffer.findById` has returned the
document `o` (src/controllers/tradeOfferController.js, lines 202-248): the
authorization check, the status check, the in-memory mutation and the
`offer.save()`.  Kept separate from the lookup because the source performs
the read and the write as two distinct store operations. -/
def acceptApply (uid : Nat) (msg : Option String) (now : Nat)
    (o : OfferDoc) (db : DB) : Nat × DB :=
  if o.seller != uid then (403, db)
  else if o.status != "pending" then (400, db)
  else
    let o1 := { o with status := "accepted", resolvedAt := some now }
    let o2 := if jsTruthy msg then { o1 with responseMessage := msg.getD "" } else o1
    if validOffer o2 then (200, saveOffer o2 db) else (500, db)

/-- `acceptOffer` (src/controllers/tradeOfferController.js, lines 196-249). -/
def acceptOffer (uid oid : Nat) (msg : Option String) (now : Nat)
    (db : DB) : Nat × DB :=
  match findOffer oid db with
  | none => (404, db)
  | some o => acceptApply uid msg now o db

/-- The post-read part of `declineOffer`
(src/controllers/tradeOfferController.js, lines 262-299). -/
def declineApply (uid : Nat) (msg : Option String) (now : Nat)
    (o : OfferDoc) (db : DB) : Nat × DB :=
  if o.seller != uid then (403, db)
  else if o.status != "pending" then (400, db)
  else
    let o1 := { o with status := "declined", resolvedAt := some now }
    let o2 := if jsTruthy msg then { o1 with responseMessage := msg.getD "" } else o1
    if validOffer o2 then (200, saveOffer o2 db) else (500, db)

/-- `declineOffer` (src/controllers/tradeOfferController.js, lines 256-307). -/
def declineOffer (uid oid : Nat) (msg : Option String) (now : Nat)
    (db : DB) : Nat × DB :=
  match findOffer oid db with
  | none => (404, db)
  | some o => declineApply uid msg now o db

/-- The post-read part of `cancelOffer`
(src/controllers/tradeOfferController.js, lines 318-344). -/
def cancelApply (uid : Nat) (now : Nat) (o : OfferDoc) (db : DB) : Nat × DB :=
  if o.buyer != uid then (403, db)
  else if o.status != "pending" then (400, db)
  else
    let o1 := { o with status := "cancelled", resolvedAt := some now }
    if validOffer o1 then (200, saveOffer o1 db) else (500, db)

/-- `cancelOffer` (src/controllers/tradeOfferController.js, lines 314-362). -/
def cancelOffer (uid oid : Nat) (now : Nat) (db : DB) : Nat × DB :=
  match findOffer oid db with
  | none => (404, db)
  | some o => cancelApply uid now o db

/-- `createCheckoutSession` (src/controllers/paymentController.js,
lines 32-121).  `offerId` is the request body's optional field; `gw` is the
result of `stripe.checkout.sessions.create` — `some (sessionId, url)` when
the gateway call succeeded, `none` when it threw (the catch-all answers
500).  The handler returns its status code, the `{sessionId, url}` payload
when it answers 200, and the store, which it never writes. -/
def createCheckoutSession (uid : Nat) (offerId : Option Nat)
    (gw : Option (String × String)) (db : DB) :
    (Nat × Option (String × String)) × DB :=
  match offerId with
  | none => ((400, none), db)
  | some oid =>
    match findOffer oid db with
    | none => ((404, none), db)
    | some offer =>
      if offer.buyer != uid then ((403, none), db)
      else if offer.status != "accepted" then ((400, none), db)
      else
        match gw with
        | none => ((500, none), db)
        | some s => ((200, some s), db)

/-- A webhook request after body parsing: `sigValid` models
`stripe.webhooks.constructEvent` succeeding on the raw body, signature
header and secret; `etype` is `event.type`; the remaining fields are
`event.data.object` — `session.metadata.{offerId, buyerId, sellerId}`,
`session.id` and `session.payment_intent`. -/
structure WebhookEvent where
  sigValid : Bool
  etype : String
  offerId : Nat
  buyerId : Nat
  sellerId : Nat
  sessionId : String
  paymentIntent : Option String
deriving DecidableEq

/-- The Transaction document built by the `Transaction.create` call inside
`handleWebhook` (src/controllers/paymentController.js, lines 181-192):
`buyer` and `seller` come from the session metadata, the rest from the
offer and the session. -/
def webhookTxn (ev : WebhookEvent) (offer : OfferDoc) (now : Nat) : TxnDoc :=
  { buyer := ev.buyerId
    seller := ev.sellerId
    tradeOffer := ev.offerId
    listing := offer.listing
    card := offer.card
    amount := offer.offeredPrice
    stripeSessionId := some ev.sessionId
    stripePaymentIntentId := ev.paymentIntent
    status := "completed"
    completedAt := some now }

/-- The unique (sparse) index on `transactionSchema.stripeSessionId`:
`Transaction.create` raises a duplicate-key error when a stored transaction
already carries this session id. -/
def dupSessionId (sid : String) (db : DB) : Bool :=
  db.transactions.any (fun t => t.stripeSessionId == some sid)

/-- Modelled from the spec: the Notification Sink (§2, §4.3 step 8) —
`createNotification` lives in src/controllers/notificationController.js,
which is not among the sources; per the spec it is a fire-and-forget
append of a notification for the recipient. -/
def createNotification (user : Nat) (ntype : String) (relatedOffer : Nat)
    (db : DB) : DB :=
  { db with notifications := db.notifications ++ [⟨user, ntype, relatedOffer⟩] }

/-- `handleWebhook` (src/controllers/paymentController.js, lines 132-212).
Signature failure answers 400 before any store access.  After successful
verification, a `checkout.session.completed` event is processed inside a
try/catch whose catch only logs, and the handler always ends with
`res.status(200)`.  Processing: look up the offer (missing → acknowledge);
skip if already `completed`; set `status = 'completed'` and `resolvedAt`
and `save()` — the save validates against `tradeOfferSchema`, and a
`ValidationError` lands in the catch with no store write; on a successful
save, flip the listing to `sold`, `Transaction.create` (validation or a
duplicate session id raises, landing in the catch), then notify the
seller. -/
def handleWebhook (ev : WebhookEvent) (now : Nat) (db : DB) : Nat × DB :=
  if !ev.sigValid then (400, db)
  else if ev.etype == "checkout.session.completed" then
    match findOffer ev.offerId db with
    | none => (200, db)
    | some offer =>
      if offer.status == "completed" then (200, db)
      else
        let offer1 := { offer with status := "completed", resolvedAt := some now }
        if validOffer offer1 then
          let db1 := saveOffer offer1 db
          let db2 := setListingSold offer.listing db1
          let txn := webhookTxn ev offer now
          if validTxn txn && !dupSessionId ev.sessionId db2 then
            let db3 := { db2 with transactions := db2.transactions ++ [txn] }
            (200, createNotification ev.sellerId "payment_received" ev.offerId db3)
          else (200, db2)
        else (200, db)
  else (200, db)

/-! ### Helper lemmas -/

/-- `completed` is not one of `tradeOfferSchema.status.enum`'s values. -/
theorem offerStatusEnum_not_completed : offerStatusEnum.contains "completed" = false := by
  decide

/-- Any TradeOffer document whose status is `completed` fails schema
validation, because `completed` is missing from the status enum. -/
theorem validOffer_completed_false (o : OfferDoc) (h : o.status = "completed") :
    validOffer o = false := by
  have hmem : ¬ ("completed" ∈ offerStatusEnum) := by decide
  simp [validOffer, h, hmem]

/-- `handleWebhook` never changes the store, and answers 400 exactly when
the signature is invalid: signature failure exits before any store access,
non-completion events are only acknowledged, a missing or already-completed
offer is acknowledged, and the settlement write itself always fails
validation (`completed` is not in the offer status enum) and is caught. -/
theorem handleWebhook_eq (ev : WebhookEvent) (now : Nat) (db : DB) :
    handleWebhook ev now db = (if ev.sigValid then 200 else 400, db) := by
  by_cases hs : ev.sigValid
  · by_cases ht : ev.etype = "checkout.session.completed"
    · cases hf : findOffer ev.offerId db with
      | none => simp [handleWebhook, hs, ht, hf]
      | some offer =>
        by_cases hc : offer.status = "completed"
        · simp [handleWebhook, hs, ht, hf, hc]
        · have hv : validOffer { offer with status := "completed", resolvedAt := some now } = false :=
            validOffer_completed_false _ rfl
          simp [handleWebhook, hs, ht, hf, hc, hv]
    · simp [handleWebhook, hs, ht]
  · simp [handleWebhook, hs]

/-! ### Concrete fixtures -/

/-- An active listing: id 10, seller 3, card 20, asking price 30. -/
def listing10 : ListingDoc := ⟨10, 3, 20, 30, "active"⟩

/-- An accepted offer: id 1, buyer 2, seller 3, offered price 25 on
listing 10, resolved at time 5. -/
def offer1 : OfferDoc := ⟨1, 10, 2, 3, 20, 25, 30, "accepted", "", "deal", some 5⟩

/-- A pending offer: id 2, buyer 2, seller 3 on listing 10. -/
def offer2 : OfferDoc := ⟨2, 10, 2, 3, 20, 25, 30, "pending", "", "", none⟩

/-- A store holding the accepted offer 1 and its listing. -/
def dbAccepted : DB := ⟨[offer1], [listing10], [], []⟩

/-- A store holding the pending offer 2 and its listing. -/
def dbPending : DB := ⟨[offer2], [listing10], [], []⟩

/-- A store holding only the active listing 10. -/
def dbListingOnly : DB := ⟨[], [listing10], [], []⟩

/-- A signature-verified `checkout.session.completed` event whose metadata
references offer 1 with the buyer and seller the checkout session
embedded. -/
def evOffer1 : WebhookEvent :=
  ⟨true, "checkout.session.completed", 1, 2, 3, "cs_1", some "pi_1"⟩

/-- The same completion event with a buyer id in the metadata that differs
from the offer's stored buyer. -/
def evForged : WebhookEvent := { evOffer1 with buyerId := 99 }

/-- A webhook request whose signature verification failed. -/
def evBadSig : WebhookEvent := { evOffer1 with sigValid := false }

/-! ### Claims -/

/-- Claim C1 (code bug).  The claim: a signature-verified
`checkout.session.completed` event whose metadata references an accepted
offer moves the offer to `completed` with `resolvedAt` set, marks the
listing `sold`, and creates a Transaction with the offer's price and the
session id.  The code cannot do this: `tradeOfferSchema.status.enum` has
no `completed` value, so the `offer.save()` inside `handleWebhook` fails
validation, the catch swallows the error, and the store is untouched while
200 is returned.  This theorem evaluates the webhook at exactly the
claim's scenario: the offer stays `accepted`, the listing stays `active`,
no Transaction exists, and the root cause is the enum. -/
theorem c1_settlement_never_applies :
    handleWebhook evOffer1 6 dbAccepted = (200, dbAccepted) ∧
    (handleWebhook evOffer1 6 dbAccepted).2.offers.map OfferDoc.status = ["accepted"] ∧
    (handleWebhook evOffer1 6 dbAccepted).2.listings.map ListingDoc.status = ["active"] ∧
    (handleWebhook evOffer1 6 dbAccepted).2.transactions = [] ∧
    offerStatusEnum.contains "completed" = false ∧
    validOffer { offer1 with status := "completed", resolvedAt := some 6 } = false := by
  decide

/-- Claim C2 (code bug).  The claim: every TradeOffer status transition is
one atomic conditional write keyed on the expected status, so of two
concurrent conflicting transitions exactly one wins and the loser observes
a conflict.  The code instead does `findById` then `save()` — a blind
read-then-write.  This theorem exhibits the race on the concrete pending
offer 2: the seller's accept and the buyer's cancel both read the offer
from the same initial store; the accept write succeeds (200) and stores
`accepted`, then the cancel write — checking its stale read — also
succeeds (200) and silently overwrites the status with `cancelled`.  Both
writers win and apply their side effects; neither observes a conflict. -/
theorem c2_race_both_writers_win :
    acceptApply 3 none 7 offer2 dbPending =
      (200, (acceptApply 3 none 7 offer2 dbPending).2) ∧
    (acceptApply 3 none 7 offer2 dbPending).2.offers.map OfferDoc.status = ["accepted"] ∧
    (cancelApply 2 8 offer2 (acceptApply 3 none 7 offer2 dbPending).2).1 = 200 ∧
    (cancelApply 2 8 offer2
        (acceptApply 3 none 7 offer2 dbPending).2).2.offers.map OfferDoc.status =
      ["cancelled"] := by
  decide

/-- Claim C3 (code bug).  The claim: delivering the same verified
completion event twice yields exactly one Transaction and exactly one
transition to `completed`; redelivery and unknown-offer events are
acknowledged with no writes.  Because `completed` is missing from
`tradeOfferSchema.status.enum`, even the first delivery performs no writes
(the `offer.save()` throws and is caught), so the code produces zero
Transactions and zero `completed` transitions, not one.  This theorem
delivers the event twice: both deliveries answer 200 and leave the store
unchanged, the transaction count is 0, and the offer is still
`accepted`. -/
theorem c3_double_delivery_zero_transactions :
    handleWebhook evOffer1 6 dbAccepted = (200, dbAccepted) ∧
    handleWebhook evOffer1 7 (handleWebhook evOffer1 6 dbAccepted).2 =
      (200, dbAccepted) ∧
    (handleWebhook evOffer1 7
        (handleWebhook evOffer1 6 dbAccepted).2).2.transactions.length = 0 ∧
    findOffer 1 (handleWebhook evOffer1 7
        (handleWebhook evOffer1 6 dbAccepted).2).2 = some offer1 := by
  decide

/-- Claim C10 (code bug).  The claim: the Transaction that `handleWebhook`
creates copies `buyer` and `seller` verbatim from the event metadata with
no check against the offer, so an event with a forged buyer id still
produces a Transaction carrying the forged value.  The verbatim copy is
real — the document built for `Transaction.create` takes its `buyer` and
`seller` fields from the metadata (`webhookTxn`), and here records buyer
99 although the offer's stored buyer is 2 — but no Transaction is ever
created: the preceding `offer.save()` fails validation (`completed` is not
in the status enum), the catch swallows the error, and the store is
unchanged. -/
theorem c10_metadata_copied_but_never_written :
    (webhookTxn evForged offer1 6).buyer = 99 ∧
    (webhookTxn evForged offer1 6).seller = evForged.sellerId ∧
    offer1.buyer = 2 ∧
    handleWebhook evForged 6 dbAccepted = (200, dbAccepted) ∧
    (handleWebhook evForged 6 dbAccepted).2.transactions = [] := by
  decide

/-- Claim C4 (confirmed).  For every webhook request, `handleWebhook`
answers 400 exactly when signature verification fails; on that failure the
store is untouched; and once the signature verifies the answer is always
200 — for non-completion event types, for events whose processing throws
(all processing errors are caught and only logged), and for the settlement
path itself. -/
theorem c4_webhook_status_discipline (ev : WebhookEvent) (now : Nat) (db : DB) :
    ((handleWebhook ev now db).1 = 400 ↔ ev.sigValid = false) ∧
    (ev.sigValid = false → (handleWebhook ev now db).2 = db) ∧
    (ev.sigValid = true → (handleWebhook ev now db).1 = 200) := by
  have h := handleWebhook_eq ev now db
  cases hsv : ev.sigValid <;> simp [h, hsv]

/-- Witness for C4: the bad-signature event is answered 400 with the store
untouched; the verified completion event is answered 200. -/
theorem c4_witness :
    (handleWebhook evBadSig 0 dbAccepted).2 = dbAccepted ∧
    (handleWebhook evOffer1 6 dbAccepted).1 = 200 :=
  ⟨(c4_webhook_status_discipline evBadSig 0 dbAccepted).2.1 rfl,
   (c4_webhook_status_discipline evOffer1 6 dbAccepted).2.2 rfl⟩

/-- Claim C5 counterexample.  The claim says a correctly-authorized
transition request on a non-pending offer fails with 409; on the concrete
accepted offer 1, the seller's accept request is answered 400
(`res.status(400)` at the "already been resolved" check), not 409. -/
theorem c5_counterexample_conflict_is_not_409 :
    (acceptOffer 3 1 none 9 dbAccepted).1 = 400 ∧
    ¬ (acceptOffer 3 1 none 9 dbAccepted).1 = 409 := by
  decide

/-- Claim C5 (corrected: 400 instead of 409).  For every TradeOffer whose
status is not `pending`, a correctly-authorized accept, decline, or cancel
request fails with HTTP status 400 and leaves the store unchanged. -/
theorem c5_amended_conflict_is_400 (uid oid : Nat) (msg : Option String)
    (now : Nat) (db : DB) (o : OfferDoc) (hfind : findOffer oid db = some o)
    (hstat : o.status ≠ "pending") :
    (o.seller = uid → acceptOffer uid oid msg now db = (400, db)) ∧
    (o.seller = uid → declineOffer uid oid msg now db = (400, db)) ∧
    (o.buyer = uid → cancelOffer uid oid now db = (400, db)) := by
  refine ⟨fun hu => ?_, fun hu => ?_, fun hu => ?_⟩ <;>
    simp [acceptOffer, declineOffer, cancelOffer, hfind,
      acceptApply, declineApply, cancelApply, hu, hstat]

/-- Witness for C5: on the accepted offer 1, the seller's accept is
answered 400 with the store unchanged. -/
theorem c5_witness : acceptOffer 3 1 none 9 dbAccepted = (400, dbAccepted) :=
  (c5_amended_conflict_is_400 3 1 none 9 dbAccepted offer1 rfl (by decide)).1 rfl

/-- Claim C6 (confirmed).  For every stored offer: accept and decline
answer 200 only when the caller is `offer.seller`, and any other caller
gets 403 with the store unchanged; cancel and checkout-session creation
answer 200 only when the caller is `offer.buyer`, and any other caller
gets 403 with the store unchanged. -/
theorem c6_actor_authorization (uid oid : Nat) (msg : Option String)
    (now : Nat) (gw : Option (String × String)) (db : DB) (o : OfferDoc)
    (hfind : findOffer oid db = some o) :
    ((acceptOffer uid oid msg now db).1 = 200 → o.seller = uid) ∧
    (o.seller ≠ uid → acceptOffer uid oid msg now db = (403, db)) ∧
    ((declineOffer uid oid msg now db).1 = 200 → o.seller = uid) ∧
    (o.seller ≠ uid → declineOffer uid oid msg now db = (403, db)) ∧
    ((cancelOffer uid oid now db).1 = 200 → o.buyer = uid) ∧
    (o.buyer ≠ uid → cancelOffer uid oid now db = (403, db)) ∧
    ((createCheckoutSession uid (some oid) gw db).1.1 = 200 → o.buyer = uid) ∧
    (o.buyer ≠ uid → createCheckoutSession uid (some oid) gw db = ((403, none), db)) := by
  have ha : o.seller ≠ uid → acceptOffer uid oid msg now db = (403, db) := by
    intro hne; simp [acceptOffer, acceptApply, hfind, hne]
  have hd : o.seller ≠ uid → declineOffer uid oid msg now db = (403, db) := by
    intro hne; simp [declineOffer, declineApply, hfind, hne]
  have hc : o.buyer ≠ uid → cancelOffer uid oid now db = (403, db) := by
    intro hne; simp [cancelOffer, cancelApply, hfind, hne]
  have hk : o.buyer ≠ uid → createCheckoutSession uid (some oid) gw db = ((403, none), db) := by
    intro hne; simp [createCheckoutSession, hfind, hne]
  refine ⟨fun h200 => ?_, ha, fun h200 => ?_, hd, fun h200 => ?_, hc, fun h200 => ?_, hk⟩
  · by_contra hne; rw [ha hne] at h200; simp at h200
  · by_contra hne; rw [hd hne] at h200; simp at h200
  · by_contra hne; rw [hc hne] at h200; simp at h200
  · by_contra hne; rw [hk hne] at h200; simp at h200

/-- Witness for C6: user 99 (neither buyer nor seller of offer 1) is
answered 403 on accept, with the store unchanged. -/
theorem c6_witness : acceptOffer 99 1 none 9 dbAccepted = (403, dbAccepted) :=
  (c6_actor_authorization 99 1 none 9 none dbAccepted offer1 rfl).2.1 (by decide)

/-- `createOffer` never writes the transactions collection. -/
theorem createOffer_transactions (uid lid : Nat) (p : Rat) (m : Option String)
    (nid : Nat) (db : DB) :
    (createOffer uid lid p m nid db).2.transactions = db.transactions := by
  unfold createOffer
  split
  · rfl
  · dsimp only
    split
    · rfl
    · split
      · rfl
      · split <;> rfl

/-- `acceptOffer` never writes the transactions collection. -/
theorem acceptOffer_transactions (uid oid : Nat) (m : Option String)
    (now : Nat) (db : DB) :
    (acceptOffer uid oid m now db).2.transactions = db.transactions := by
  unfold acceptOffer acceptApply
  split
  · rfl
  · split
    · rfl
    · split
      · rfl
      · dsimp only; split <;> (split <;> rfl)

/-- `declineOffer` never writes the transactions collection. -/
theorem declineOffer_transactions (uid oid : Nat) (m : Option String)
    (now : Nat) (db : DB) :
    (declineOffer uid oid m now db).2.transactions = db.transactions := by
  unfold declineOffer declineApply
  split
  · rfl
  · split
    · rfl
    · split
      · rfl
      · dsimp only; split <;> (split <;> rfl)

/-- `cancelOffer` never writes the transactions collection. -/
theorem cancelOffer_transactions (uid oid : Nat) (now : Nat) (db : DB) :
    (cancelOffer uid oid now db).2.transactions = db.transactions := by
  unfold cancelOffer cancelApply
  split
  · rfl
  · split
    · rfl
    · split
      · rfl
      · dsimp only; split <;> rfl

/-- `createCheckoutSession` never writes the store at all. -/
theorem createCheckoutSession_snd (uid : Nat) (offerId : Option Nat)
    (gw : Option (String × String)) (db : DB) :
    (createCheckoutSession uid offerId gw db).2 = db := by
  unfold createCheckoutSession
  split
  · rfl
  · split
    · rfl
    · split
      · rfl
      · split
        · rfl
        · split <;> rfl

/-- One handler invocation against the store: the store after any request
processed by the offer/payment core. -/
inductive Step : DB → DB → Prop where
  | offerCreation (uid lid : Nat) (p : Rat) (m : Option String) (nid : Nat)
      (db : DB) : Step db (createOffer uid lid p m nid db).2
  | offerAccept (uid oid : Nat) (m : Option String) (now : Nat) (db : DB) :
      Step db (acceptOffer uid oid m now db).2
  | offerDecline (uid oid : Nat) (m : Option String) (now : Nat) (db : DB) :
      Step db (declineOffer uid oid m now db).2
  | offerCancel (uid oid : Nat) (now : Nat) (db : DB) :
      Step db (cancelOffer uid oid now db).2
  | checkout (uid : Nat) (offerId : Option Nat) (gw : Option (String × String))
      (db : DB) : Step db (createCheckoutSession uid offerId gw db).2
  | webhook (ev : WebhookEvent) (now : Nat) (db : DB) :
      Step db (handleWebhook ev now db).2

/-- Stores reachable from the empty store through handler invocations. -/
inductive Reachable : DB → Prop where
  | empty : Reachable ⟨[], [], [], []⟩
  | step {db db' : DB} : Reachable db → Step db db' → Reachable db'

/-- No handler of the core writes the transactions collection: the only
would-be writer is the webhook's `Transaction.create`, and the
`offer.save()` preceding it always fails validation. -/
theorem Step.transactions_eq {db db' : DB} (h : Step db db') :
    db'.transactions = db.transactions := by
  cases h with
  | offerCreation uid lid p m nid db => exact createOffer_transactions uid lid p m nid db
  | offerAccept uid oid m now db => exact acceptOffer_transactions uid oid m now db
  | offerDecline uid oid m now db => exact declineOffer_transactions uid oid m now db
  | offerCancel uid oid now db => exact cancelOffer_transactions uid oid now db
  | checkout uid offerId gw db => rw [createCheckoutSession_snd]
  | webhook ev now db => rw [handleWebhook_eq]

/-- Every reachable store has an empty transactions collection. -/
theorem reachable_transactions_nil {db : DB} (h : Reachable db) :
    db.transactions = [] := by
  induction h with
  | empty => rfl
  | step _ s ih => rw [s.transactions_eq, ih]

/-- Claim C7 counterexample.  The claim says the at-most-one-Transaction
invariant is enforced by a uniqueness constraint on the Transaction's
offer reference; `transactionSchema.tradeOffer` declares no such
constraint — the only unique (sparse) path is `stripeSessionId`. -/
theorem c7_counterexample_no_unique_offer_ref :
    transactionSchema_tradeOffer.unique = false ∧
    transactionSchema_stripeSessionId.unique = true := by
  decide

/-- Claim C7 (corrected: the bound holds, but not by the claimed
mechanism).  In every reachable store there is at most one Transaction per
TradeOffer.  The schema has no uniqueness constraint on the offer
reference; in the current code the bound holds because no handler ever
appends a Transaction — the webhook's settlement save fails validation
before `Transaction.create` is reached. -/
theorem c7_amended_at_most_one_transaction {db : DB} (h : Reachable db)
    (oid : Nat) :
    (db.transactions.filter (fun t => t.tradeOffer == oid)).length ≤ 1 := by
  rw [reachable_transactions_nil h]
  simp

/-- Witness for C7 at the empty store. -/
theorem c7_witness :
    (((⟨[], [], [], []⟩ : DB)).transactions.filter
      (fun t => t.tradeOffer == 1)).length ≤ 1 :=
  c7_amended_at_most_one_transaction Reachable.empty 1

/-- Claim C8 counterexample.  The claim says checkout-session creation on
a non-accepted offer fails with 409; on the concrete pending offer 2, the
buyer's request is answered 400 (`res.status(400)` at the "not in an
accepted state" check), not 409. -/
theorem c8_counterexample_conflict_is_not_409 :
    (createCheckoutSession 2 (some 2) (some ("cs_2", "url_2")) dbPending).1.1 = 400 ∧
    ¬ (createCheckoutSession 2 (some 2) (some ("cs_2", "url_2")) dbPending).1.1 = 409 := by
  decide

/-- Claim C8 (corrected: 400 instead of 409).  `createCheckoutSession`
never writes the store; when the caller is the buyer, the offer is
`accepted` and the gateway call succeeds, it answers 200 with the session
id and redirect URL; when the caller is the buyer and the offer is not
`accepted`, it answers 400. -/
theorem c8_amended_checkout_frame (uid : Nat) (offerId : Option Nat)
    (gw : Option (String × String)) (db : DB) :
    (createCheckoutSession uid offerId gw db).2 = db ∧
    (∀ oid o s, offerId = some oid → findOffer oid db = some o →
      o.buyer = uid → o.status = "accepted" → gw = some s →
      (createCheckoutSession uid offerId gw db).1 = (200, some s)) ∧
    (∀ oid o, offerId = some oid → findOffer oid db = some o →
      o.buyer = uid → o.status ≠ "accepted" →
      (createCheckoutSession uid offerId gw db).1 = (400, none)) := by
  refine ⟨createCheckoutSession_snd uid offerId gw db, ?_, ?_⟩
  · rintro oid o s rfl hfind rfl hstat rfl
    simp [createCheckoutSession, hfind, hstat]
  · rintro oid o rfl hfind rfl hstat
    simp [createCheckoutSession, hfind, hstat]

/-- Witness for C8: the buyer of the accepted offer 1 gets 200 with the
gateway session handle, and the store is unchanged. -/
theorem c8_witness :
    (createCheckoutSession 2 (some 1) (some ("cs_1", "url_1")) dbAccepted).2 = dbAccepted ∧
    (createCheckoutSession 2 (some 1) (some ("cs_1", "url_1")) dbAccepted).1 =
      (200, some ("cs_1", "url_1")) :=
  ⟨(c8_amended_checkout_frame 2 (some 1) (some ("cs_1", "url_1")) dbAccepted).1,
   (c8_amended_checkout_frame 2 (some 1) (some ("cs_1", "url_1")) dbAccepted).2.1
     1 offer1 ("cs_1", "url_1") rfl rfl rfl rfl rfl⟩

/-- Claim C9 counterexample.  The claim says an offer-creation request
with a non-positive price fails with 400; on the concrete request with
price 0 against the active listing 10, `TradeOffer.create` raises a
`ValidationError` (`min: 0.01`), the controller's catch-all answers 500,
not 400, and no offer is created. -/
theorem c9_counterexample_validation_is_500 :
    (createOffer 2 10 0 none 7 dbListingOnly).1 = 500 ∧
    ¬ (createOffer 2 10 0 none 7 dbListingOnly).1 = 400 ∧
    (createOffer 2 10 0 none 7 dbListingOnly).2 = dbListingOnly := by
  decide

/-- Claim C9 (corrected: 500 instead of 400).  For every offer-creation
request whose offeredPrice is not positive, no TradeOffer is created (the
store is unchanged), and on the path that reaches document creation — the
listing exists, is active, and is not the caller's own — the request fails
with HTTP status 500, the controller's catch-all for the schema's
`ValidationError`. -/
theorem c9_amended_nonpositive_price_500 (uid lid : Nat) (price : Rat)
    (m : Option String) (nid : Nat) (db : DB) (hp : price ≤ 0) :
    (createOffer uid lid price m nid db).2 = db ∧
    (∀ l, findListing lid db = some l → l.seller ≠ uid → l.status = "active" →
      (createOffer uid lid price m nid db).1 = 500) := by
  have hlt : ¬ (offerMinPrice ≤ price) := by
    intro hle
    have hpos : (0 : Rat) < offerMinPrice := by norm_num [offerMinPrice]
    linarith
  constructor
  · unfold createOffer
    split
    · rfl
    · dsimp only
      split
      · rfl
      · split
        · rfl
        · split
          · next hval =>
            rw [validOffer] at hval
            simp [hlt] at hval
          · rfl
  · rintro l hfind hsell hstat
    simp only [createOffer, hfind]
    have hv : validOffer
        { oid := nid, listing := l.lid, buyer := uid, seller := l.seller,
          card := l.card, offeredPrice := price, listingPrice := l.price,
          status := "pending", initialMessage := m.getD "",
          responseMessage := "", resolvedAt := none } = false := by
      simp [validOffer, hlt]
    simp [hsell, hstat, hv, Ne.symm hsell]

/-- Witness for C9: price 0 against the active listing 10 leaves the
store unchanged and is answered 500. -/
theorem c9_witness :
    (createOffer 2 10 0 none 7 dbListingOnly).2 = dbListingOnly ∧
    (createOffer 2 10 0 none 7 dbListingOnly).1 = 500 :=
  ⟨(c9_amended_nonpositive_price_500 2 10 0 none 7 dbListingOnly (by norm_num)).1,
   (c9_amended_nonpositive_price_500 2 10 0 none 7 dbListingOnly (by norm_num)).2
     listing10 rfl (by decide) rfl⟩

end CardVault
